import Mathlib

/-!
Verification of the sticky-notes CRUD application.

The embedding follows the source files of the `notes` app:
`models.py` (the `Note` model), `forms.py` (the `NoteForm` model form, whose
field validation comes from Django: values are stripped, a missing or empty
required field yields "This field is required.", and the `title` field
carries a 255-character maximum-length validator), and `views.py` (the five
function-based views `note_list`, `note_detail`, `note_create`,
`note_update`, `note_delete`, using `get_object_or_404`, `redirect` and
`render`).  The persistence collaborator is modelled as a list of notes in
insertion order together with the next auto-increment primary key.
-/

namespace StickyNotes

/-- A persisted note (`models.py`, class `Note`): auto-assigned primary key
`id`, `title` (a `CharField` with `max_length=255`) and `content`
(a `TextField`). -/
structure Note where
  id : Nat
  title : String
  content : String
deriving DecidableEq

/-- The persistence collaborator: the stored notes in insertion order and
the next auto-increment primary key (never reused). -/
structure Store where
  notes : List Note
  nextId : Nat
deriving DecidableEq

/-- A form submission (`request.POST`): each field is either absent or a raw
string. -/
structure Submission where
  title : Option String
  content : Option String
deriving DecidableEq

/-- Python `str.strip()`: drop leading and trailing whitespace. -/
def strip (s : String) : String :=
  ⟨((s.data.dropWhile Char.isWhitespace).reverse.dropWhile Char.isWhitespace).reverse⟩

/-- Django `CharField.to_python` with the default `strip=True`: a missing
value becomes the empty string, and the value is stripped. -/
def cleanField (v : Option String) : String := strip (v.getD "")

/-- Django's required-field error message. -/
def requiredMsg : String := "This field is required."

/-- Django's `MaxLengthValidator` message for `max_length=255`. -/
def maxLenMsg (n : Nat) : String :=
  "Ensure this value has at most 255 characters (it has " ++ toString n ++ ")."

/-- Validation errors on the cleaned `title` value: `Field.clean` first
checks requiredness (raising immediately on an empty value), then runs the
`MaxLengthValidator` contributed by `CharField(max_length=255)`. -/
def titleErrors (t : String) : List String :=
  if t = "" then [requiredMsg]
  else if 255 < t.length then [maxLenMsg t.length]
  else []

/-- Validation errors on the cleaned `content` value: requiredness only
(`TextField` has no length bound). -/
def contentErrors (c : String) : List String :=
  if c = "" then [requiredMsg] else []

/-- Per-field error messages of a bound `NoteForm`. -/
structure FieldErrors where
  title : List String
  content : List String
deriving DecidableEq

/-- A form has no errors when both per-field lists are empty. -/
def FieldErrors.isEmpty (e : FieldErrors) : Bool :=
  e.title.isEmpty && e.content.isEmpty

/-- The errors a bound `NoteForm` computes for a submission (`forms.py`,
`NoteForm` over fields `title` and `content`). -/
def formErrors (d : Submission) : FieldErrors :=
  { title := titleErrors (cleanField d.title)
    content := contentErrors (cleanField d.content) }

/-- `NoteForm.is_valid()`: the form is valid when no field has errors. -/
def NoteForm.isValid (d : Submission) : Bool := (formErrors d).isEmpty

/-- HTTP method of a request, as the views distinguish it. -/
inductive Method
  | get
  | post
deriving DecidableEq

/-- A request: its method and (for POST) the submitted form data. -/
structure Request where
  method : Method
  data : Submission
deriving DecidableEq

/-- The form a view renders: unbound (GET) or bound to submitted data, in
both cases possibly carrying an existing instance (update views). -/
inductive FormView
  | unbound (inst : Option Note)
  | bound (data : Submission) (inst : Option Note) (errors : FieldErrors)
deriving DecidableEq

/-- The response a view produces: a rendered template with its context, a
redirect, or a 404. -/
inductive Response
  | listPage (notes : List Note)
  | detailPage (note : Note)
  | formPage (form : FormView)
  | confirmPage (note : Note)
  | redirectDetail (pk : Nat)
  | redirectList
  | notFound
deriving DecidableEq

/-- Ordering of notes by ascending primary key. -/
def idLe (a b : Note) : Prop := a.id ≤ b.id

instance : DecidableRel idLe := fun a b => inferInstanceAs (Decidable (a.id ≤ b.id))

instance : IsTotal Note idLe := ⟨fun a b => Nat.le_total a.id b.id⟩

instance : IsTrans Note idLe := ⟨fun _ _ _ => Nat.le_trans⟩

/-- `Note.objects.all().order_by("id")`. -/
def sortById (l : List Note) : List Note := List.insertionSort idLe l

/-- `Note.objects.get(pk=pk)`, as used by `get_object_or_404`. -/
def findNote (s : Store) (pk : Nat) : Option Note :=
  s.notes.find? (fun n => n.id == pk)

/-- `views.note_list`: render all notes ordered by ascending id. -/
def note_list (s : Store) : Response × Store :=
  (.listPage (sortById s.notes), s)

/-- `views.note_detail`: `get_object_or_404`, then render the note. -/
def note_detail (s : Store) (pk : Nat) : Response × Store :=
  match findNote s pk with
  | none => (.notFound, s)
  | some n => (.detailPage n, s)

/-- `views.note_create`: on GET render an empty form; on POST validate and
save a new note (with the cleaned field values), redirecting to its detail
view, or re-render the bound form with its errors. -/
def note_create (s : Store) (req : Request) : Response × Store :=
  match req.method with
  | .get => (.formPage (.unbound none), s)
  | .post =>
    let errs := formErrors req.data
    if errs.isEmpty then
      let note : Note :=
        { id := s.nextId
          title := cleanField req.data.title
          content := cleanField req.data.content }
      (.redirectDetail note.id, { notes := s.notes ++ [note], nextId := s.nextId + 1 })
    else
      (.formPage (.bound req.data none errs), s)

/-- `views.note_update`: `get_object_or_404`; on GET render the form bound
to the instance; on POST validate and save the changes in place (cleaned
values, id preserved), redirecting to detail, or re-render with errors. -/
def note_update (s : Store) (pk : Nat) (req : Request) : Response × Store :=
  match findNote s pk with
  | none => (.notFound, s)
  | some note =>
    match req.method with
    | .get => (.formPage (.unbound (some note)), s)
    | .post =>
      let errs := formErrors req.data
      if errs.isEmpty then
        (.redirectDetail note.id,
          { s with notes := s.notes.map (fun n =>
              if n.id == pk then
                { n with title := cleanField req.data.title
                         content := cleanField req.data.content }
              else n) })
      else
        (.formPage (.bound req.data (some note) errs), s)

/-- `views.note_delete`: `get_object_or_404`; on GET render the confirmation
page; on POST delete the note and redirect to the list. -/
def note_delete (s : Store) (pk : Nat) (req : Request) : Response × Store :=
  match findNote s pk with
  | none => (.notFound, s)
  | some note =>
    match req.method with
    | .get => (.confirmPage note, s)
    | .post => (.redirectList, { s with notes := s.notes.filter (fun n => !(n.id == pk)) })

/-- All persisted titles are within the model's 255-character bound. -/
def titlesOk (s : Store) : Prop := ∀ n ∈ s.notes, n.title.length ≤ 255

instance (s : Store) : Decidable (titlesOk s) :=
  inferInstanceAs (Decidable (∀ n ∈ s.notes, n.title.length ≤ 255))

/-- The store of the view tests: one note, as created in `setUp`. -/
def demoNote : Note :=
  { id := 1, title := "Initial Note", content := "Initial note content." }

/-- A concrete store holding `demoNote`, next key 2. -/
def demoStore : Store := { notes := [demoNote], nextId := 2 }

/-- A valid submission whose title carries surrounding whitespace. -/
def padSubmission : Submission := { title := some " Padded ", content := some "body" }

/-- A title of 256 characters. -/
def longTitle : String := ⟨List.replicate 256 'a'⟩

theorem requiredMsg_ne_maxLen (n : Nat) : requiredMsg ≠ maxLenMsg n := by
  intro h
  have h2 := congrArg String.length h
  have h3 : requiredMsg.length = 23 := by decide
  rw [h3, maxLenMsg, String.length_append, String.length_append] at h2
  have h4 : ("Ensure this value has at most 255 characters (it has " : String).length = 53 := by
    decide
  have h5 : ((")." : String)).length = 2 := by decide
  rw [h4, h5] at h2
  omega

/-- Claim C1 (amended): a submission is valid iff both fields are non-empty
after trimming and the trimmed title has at most 255 characters. -/
theorem noteForm_valid_iff (d : Submission) :
    NoteForm.isValid d = true ↔
      (cleanField d.title ≠ "" ∧ (cleanField d.title).length ≤ 255
        ∧ cleanField d.content ≠ "") := by
  unfold NoteForm.isValid formErrors FieldErrors.isEmpty titleErrors contentErrors
  by_cases ht : cleanField d.title = "" <;>
    by_cases hc : cleanField d.content = "" <;>
      by_cases hl : 255 < (cleanField d.title).length <;>
        (simp [ht, hc, hl]; try omega)

set_option maxRecDepth 4000 in
/-- Claim C1 counterexample: a submission whose title and content are both
present and non-empty after trimming, yet the form is invalid, because the
title exceeds 255 characters. -/
theorem noteForm_valid_iff_cex :
    cleanField (some longTitle) ≠ "" ∧ cleanField (some "body") ≠ ""
      ∧ NoteForm.isValid { title := some longTitle, content := some "body" } = false := by
  refine ⟨by decide, by decide, by decide⟩

/-- Claim C1 witness: evaluating the amended equivalence on a concrete
valid submission. -/
theorem noteForm_valid_iff_check :
    NoteForm.isValid { title := some "Form Note", content := some "Form note body." } = true := by
  refine (noteForm_valid_iff _).mpr ⟨by decide, by decide, by decide⟩

/-- Claim C2: the message "This field is required." is attached to the
`title` errors exactly when the cleaned title is empty, and to the
`content` errors exactly when the cleaned content is empty — both
independently, so a submission missing both fields carries the message on
both fields. -/
theorem noteForm_required_message (d : Submission) :
    (requiredMsg ∈ (formErrors d).title ↔ cleanField d.title = "")
      ∧ (requiredMsg ∈ (formErrors d).content ↔ cleanField d.content = "") := by
  unfold formErrors titleErrors contentErrors
  by_cases ht : cleanField d.title = "" <;>
    by_cases hc : cleanField d.content = "" <;>
      by_cases hl : 255 < (cleanField d.title).length <;>
        simp [ht, hc, hl, requiredMsg_ne_maxLen]

/-- Claim C2 witness: a submission missing both fields carries the required
message on both fields simultaneously. -/
theorem noteForm_required_message_check :
    requiredMsg ∈ (formErrors { title := none, content := some "   " }).title
      ∧ requiredMsg ∈ (formErrors { title := none, content := some "   " }).content :=
  ⟨(noteForm_required_message { title := none, content := some "   " }).1.mpr (by decide),
   (noteForm_required_message { title := none, content := some "   " }).2.mpr (by decide)⟩

/-- Claim C3: the detail, update and delete handlers answer 404 exactly when
no note with the given pk exists, and a 404 answer comes with the store
unchanged. -/
theorem handlers_notFound_iff (s : Store) (pk : Nat) (req : Request) :
    ((note_detail s pk).1 = Response.notFound ↔ findNote s pk = none)
      ∧ (note_detail s pk = (Response.notFound, s) ↔ findNote s pk = none)
      ∧ ((note_update s pk req).1 = Response.notFound ↔ findNote s pk = none)
      ∧ (note_update s pk req = (Response.notFound, s) ↔ findNote s pk = none)
      ∧ ((note_delete s pk req).1 = Response.notFound ↔ findNote s pk = none)
      ∧ (note_delete s pk req = (Response.notFound, s) ↔ findNote s pk = none) := by
  cases h : findNote s pk with
  | none => simp [note_detail, note_update, note_delete, h]
  | some n =>
    cases hm : req.method <;>
      (simp [note_detail, note_update, note_delete, h, hm, Prod.ext_iff]
       try (split <;> simp))

/-- Claim C3 witness: pk 9999 is absent from the demo store, and each
handler answers 404 there leaving the store unchanged. -/
theorem handlers_notFound_iff_check :
    note_detail demoStore 9999 = (Response.notFound, demoStore)
      ∧ note_update demoStore 9999 { method := Method.get, data := padSubmission }
          = (Response.notFound, demoStore)
      ∧ note_delete demoStore 9999 { method := Method.get, data := padSubmission }
          = (Response.notFound, demoStore) :=
  ⟨(handlers_notFound_iff demoStore 9999
      { method := Method.get, data := padSubmission }).2.1.mpr (by decide),
   (handlers_notFound_iff demoStore 9999
      { method := Method.get, data := padSubmission }).2.2.2.1.mpr (by decide),
   (handlers_notFound_iff demoStore 9999
      { method := Method.get, data := padSubmission }).2.2.2.2.2.mpr (by decide)⟩

/-- A successful lookup returns a note carrying the requested pk. -/
theorem findNote_id (s : Store) (pk : Nat) (n : Note) (h : findNote s pk = some n) :
    n.id = pk := by
  have h2 := List.find?_some h
  simpa using h2

/-- The valid create submission of the view tests. -/
def newSub : Submission :=
  { title := some "New Note", content := some "New note content." }

/-- The valid update submission of the view tests. -/
def updSub : Submission :=
  { title := some "Updated Title", content := some "Updated content." }

/-- A submission with both fields present but empty. -/
def emptySub : Submission := { title := some "", content := some "" }

/-- Claim C4 (amended): a valid create POST appends exactly one new note,
holding the cleaned (whitespace-trimmed) submitted values under the next
key, increasing the count by one, and redirects to that note's detail
view. -/
theorem note_create_valid (s : Store) (d : Submission)
    (h : (formErrors d).isEmpty = true) :
    (note_create s { method := Method.post, data := d }).2.notes
        = s.notes
            ++ [{ id := s.nextId, title := cleanField d.title
                  content := cleanField d.content }]
      ∧ (note_create s { method := Method.post, data := d }).2.notes.length
          = s.notes.length + 1
      ∧ (note_create s { method := Method.post, data := d }).1
          = Response.redirectDetail s.nextId := by
  simp [note_create, h]

/-- Claim C4 counterexample: a valid submission whose title carries
surrounding whitespace is persisted with the trimmed title, not the
submitted raw value. -/
theorem note_create_valid_cex :
    NoteForm.isValid padSubmission = true
      ∧ (note_create { notes := [], nextId := 1 }
            { method := Method.post, data := padSubmission }).2.notes
          = [{ id := 1, title := "Padded", content := "body" }]
      ∧ padSubmission.title = some " Padded "
      ∧ (" Padded " : String) ≠ "Padded" := by
  refine ⟨by decide, by decide, by decide, by decide⟩

/-- Claim C4 witness: the create POST of the view tests, run on the demo
store. -/
theorem note_create_valid_check :
    (note_create demoStore { method := Method.post, data := newSub }).2.notes
        = demoStore.notes
            ++ [{ id := demoStore.nextId, title := cleanField newSub.title
                  content := cleanField newSub.content }]
      ∧ (note_create demoStore { method := Method.post, data := newSub }).2.notes.length
          = demoStore.notes.length + 1
      ∧ (note_create demoStore { method := Method.post, data := newSub }).1
          = Response.redirectDetail demoStore.nextId :=
  note_create_valid demoStore newSub (by decide)

/-- Claim C5: an invalid POST re-renders the bound form with its per-field
errors (a 200-equivalent response) and leaves the store unchanged, on
create and on update of an existing note alike. -/
theorem invalid_post_rerenders (s : Store) (pk : Nat) (d : Submission)
    (h : (formErrors d).isEmpty = false) (n : Note) (hn : findNote s pk = some n) :
    note_create s { method := Method.post, data := d }
        = (Response.formPage (FormView.bound d none (formErrors d)), s)
      ∧ note_update s pk { method := Method.post, data := d }
          = (Response.formPage (FormView.bound d (some n) (formErrors d)), s) := by
  constructor
  · simp [note_create, h]
  · simp [note_update, hn, h]

/-- Claim C5 witness: the empty submission on the demo store, against the
note with pk 1. -/
theorem invalid_post_rerenders_check :
    note_create demoStore { method := Method.post, data := emptySub }
        = (Response.formPage (FormView.bound emptySub none (formErrors emptySub)), demoStore)
      ∧ note_update demoStore 1 { method := Method.post, data := emptySub }
          = (Response.formPage
              (FormView.bound emptySub (some demoNote) (formErrors emptySub)), demoStore) :=
  invalid_post_rerenders demoStore 1 emptySub (by decide) demoNote (by decide)

/-- Updating a list in place rewrites exactly the first note `find?`
locates for the pk, keeping its id. -/
theorem find?_map_update (l : List Note) (pk : Nat) (t c : String) (n : Note)
    (hn : l.find? (fun x => x.id == pk) = some n) :
    (l.map (fun x =>
        if x.id == pk then { x with title := t, content := c } else x)).find?
        (fun x => x.id == pk) = some { id := n.id, title := t, content := c } := by
  induction l with
  | nil => simp at hn
  | cons a l ih =>
    rw [List.find?_cons] at hn
    by_cases ha : (a.id == pk) = true
    · simp only [ha] at hn
      have hn2 : a = n := Option.some.inj hn
      subst hn2
      have ha3 : a.id = pk := by simpa using ha
      simp [List.map_cons, List.find?_cons, ha3]
    · have ha2 : (a.id == pk) = false := by simpa using ha
      simp only [ha2] at hn
      simp only [List.map_cons, ha2, List.find?_cons, Bool.false_eq_true, if_false]
      exact ih hn

/-- Claim C6 (amended): a valid update POST on an existing note stores the
cleaned (whitespace-trimmed) submitted values under the same pk — a
subsequent fetch by that pk returns them — and redirects to that note's
detail view. -/
theorem note_update_valid (s : Store) (pk : Nat) (d : Submission)
    (h : (formErrors d).isEmpty = true) (n : Note) (hn : findNote s pk = some n) :
    (note_update s pk { method := Method.post, data := d }).1
        = Response.redirectDetail pk
      ∧ findNote (note_update s pk { method := Method.post, data := d }).2 pk
          = some { id := pk, title := cleanField d.title
                   content := cleanField d.content } := by
  have hid : n.id = pk := findNote_id s pk n hn
  have hfind : s.notes.find? (fun x => x.id == pk) = some n := hn
  constructor
  · simp [note_update, hn, h, hid]
  · have h2 := find?_map_update s.notes pk (cleanField d.title) (cleanField d.content) n hfind
    simp only [note_update, hn, h, if_pos]
    simpa [findNote, hid] using h2

/-- Claim C6 counterexample: a valid update whose title carries surrounding
whitespace stores the trimmed title, not the submitted raw value. -/
theorem note_update_valid_cex :
    NoteForm.isValid padSubmission = true
      ∧ findNote (note_update demoStore 1
            { method := Method.post, data := padSubmission }).2 1
          = some { id := 1, title := "Padded", content := "body" }
      ∧ padSubmission.title = some " Padded "
      ∧ ("Padded" : String) ≠ " Padded " := by
  refine ⟨by decide, by decide, by decide, by decide⟩

/-- Claim C6 witness: the update POST of the view tests, applied to the
demo note. -/
theorem note_update_valid_check :
    (note_update demoStore 1 { method := Method.post, data := updSub }).1
        = Response.redirectDetail 1
      ∧ findNote (note_update demoStore 1 { method := Method.post, data := updSub }).2 1
          = some { id := 1, title := cleanField updSub.title
                   content := cleanField updSub.content } :=
  note_update_valid demoStore 1 updSub (by decide) demoNote (by decide)

/-- Claim C7: a delete POST on an existing note removes it — a subsequent
lookup by its pk fails — and redirects to the list view. -/
theorem note_delete_existing (s : Store) (pk : Nat) (d : Submission) (n : Note)
    (hn : findNote s pk = some n) :
    (note_delete s pk { method := Method.post, data := d }).1 = Response.redirectList
      ∧ findNote (note_delete s pk { method := Method.post, data := d }).2 pk = none := by
  constructor
  · simp [note_delete, hn]
  · simp only [note_delete, hn]
    simp [findNote, List.find?_eq_none, List.mem_filter]

/-- Claim C7 witness: deleting the demo note empties the store and
redirects to the list. -/
theorem note_delete_existing_check :
    (note_delete demoStore 1 { method := Method.post, data := emptySub }).1
        = Response.redirectList
      ∧ findNote (note_delete demoStore 1 { method := Method.post, data := emptySub }).2 1
          = none :=
  note_delete_existing demoStore 1 emptySub demoNote (by decide)

/-- Claim C8: the list handler always succeeds — it renders a list page and
leaves the store unchanged — and the rendered notes are exactly the stored
notes, ordered by ascending id. -/
theorem note_list_sorted (s : Store) :
    (note_list s).2 = s
      ∧ (note_list s).1 = Response.listPage (sortById s.notes)
      ∧ List.Perm (sortById s.notes) s.notes
      ∧ List.Sorted idLe (sortById s.notes) :=
  ⟨rfl, rfl, List.perm_insertionSort idLe s.notes, List.sorted_insertionSort idLe s.notes⟩

/-- A title that produces no validation errors is within the 255 bound. -/
theorem titleErrors_nil_length (t : String) (h : titleErrors t = []) :
    t.length ≤ 255 := by
  unfold titleErrors at h
  by_cases h1 : t = ""
  · simp [h1] at h
  · by_cases h2 : 255 < t.length
    · simp [h1, h2] at h
    · omega

/-- A valid submission has a cleaned title of at most 255 characters. -/
theorem isValid_title_length (d : Submission) (h : (formErrors d).isEmpty = true) :
    (cleanField d.title).length ≤ 255 := by
  apply titleErrors_nil_length
  simp [formErrors, FieldErrors.isEmpty, List.isEmpty_iff] at h
  exact h.1

/-- Claim C9: a store whose titles are within the model's 255-character
bound keeps that property across every handler — the form's max-length
validation guards the only paths that persist a title. -/
theorem titles_bounded (s : Store) (pk : Nat) (req : Request) (h : titlesOk s) :
    titlesOk (note_list s).2 ∧ titlesOk (note_detail s pk).2
      ∧ titlesOk (note_create s req).2 ∧ titlesOk (note_update s pk req).2
      ∧ titlesOk (note_delete s pk req).2 := by
  refine ⟨h, ?_, ?_, ?_, ?_⟩
  · unfold note_detail
    cases hf : findNote s pk <;> exact h
  · unfold note_create
    cases hm : req.method
    · exact h
    · by_cases hv : (formErrors req.data).isEmpty = true
      · intro n hn
        simp only [hv, if_true] at hn
        rcases List.mem_append.mp hn with h1 | h1
        · exact h n h1
        · have h2 := List.mem_singleton.mp h1
          subst h2
          exact isValid_title_length req.data hv
      · have hv2 : (formErrors req.data).isEmpty = false := by simpa using hv
        intro n hn
        simp only [hv2, Bool.false_eq_true, if_false] at hn
        exact h n hn
  · unfold note_update
    cases hf : findNote s pk
    · exact h
    · cases hm : req.method
      · exact h
      · by_cases hv : (formErrors req.data).isEmpty = true
        · intro n hn
          simp only [hv, if_true] at hn
          rcases List.mem_map.mp hn with ⟨m, hm2, rfl⟩
          by_cases hid : (m.id == pk) = true
          · simp only [hid, if_true, if_pos]
            exact isValid_title_length req.data hv
          · have hid2 : (m.id == pk) = false := by simpa using hid
            simp only [hid2, Bool.false_eq_true, if_false]
            exact h m hm2
        · have hv2 : (formErrors req.data).isEmpty = false := by simpa using hv
          intro n hn
          simp only [hv2, Bool.false_eq_true, if_false] at hn
          exact h n hn
  · unfold note_delete
    cases hf : findNote s pk
    · exact h
    · cases hm : req.method
      · exact h
      · intro n hn
        exact h n (List.mem_filter.mp hn).1

/-- Claim C9 witness: the demo store is within bounds, and stays so across
the create and update POSTs of the view tests. -/
theorem titles_bounded_check :
    titlesOk (note_create demoStore { method := Method.post, data := newSub }).2
      ∧ titlesOk (note_update demoStore 1 { method := Method.post, data := updSub }).2 :=
  ⟨(titles_bounded demoStore 1 { method := Method.post, data := newSub }
      (by decide)).2.2.1,
   (titles_bounded demoStore 1 { method := Method.post, data := updSub }
      (by decide)).2.2.2.1⟩

/-- Claim C10: every handler leaves notes with a different id untouched — a
note of the store whose id differs from the requested pk is still in the
store after create, update and delete, unchanged. -/
theorem frame_other_ids (s : Store) (pk : Nat) (req : Request) (q : Note)
    (hq : q ∈ s.notes) (hne : q.id ≠ pk) :
    q ∈ (note_create s req).2.notes ∧ q ∈ (note_update s pk req).2.notes
      ∧ q ∈ (note_delete s pk req).2.notes := by
  have hbeq : (q.id == pk) = false := by simpa using hne
  refine ⟨?_, ?_, ?_⟩
  · unfold note_create
    cases hm : req.method
    · exact hq
    · by_cases hv : (formErrors req.data).isEmpty = true
      · simp only [hv, if_true]
        exact List.mem_append_left _ hq
      · have hv2 : (formErrors req.data).isEmpty = false := by simpa using hv
        simp only [hv2, Bool.false_eq_true, if_false]
        exact hq
  · unfold note_update
    cases hf : findNote s pk
    · exact hq
    · cases hm : req.method
      · exact hq
      · by_cases hv : (formErrors req.data).isEmpty = true
        · simp only [hv, if_true]
          refine List.mem_map.mpr ⟨q, hq, ?_⟩
          simp [hbeq]
        · have hv2 : (formErrors req.data).isEmpty = false := by simpa using hv
          simp only [hv2, Bool.false_eq_true, if_false]
          exact hq
  · unfold note_delete
    cases hf : findNote s pk
    · exact hq
    · cases hm : req.method
      · exact hq
      · exact List.mem_filter.mpr ⟨hq, by simp [hbeq]⟩

/-- A second note, for frame-condition checks. -/
def otherNote : Note := { id := 2, title := "Second", content := "Second content." }

/-- A store with two notes, next key 3. -/
def twoStore : Store := { notes := [demoNote, otherNote], nextId := 3 }

/-- Claim C10 witness: a POST targeting pk 2 of a two-note store leaves the
note with pk 1 in place across all three mutating handlers. -/
theorem frame_other_ids_check :
    demoNote ∈ (note_create twoStore { method := Method.post, data := updSub }).2.notes
      ∧ demoNote ∈ (note_update twoStore 2 { method := Method.post, data := updSub }).2.notes
      ∧ demoNote ∈ (note_delete twoStore 2 { method := Method.post, data := updSub }).2.notes :=
  frame_other_ids twoStore 2 { method := Method.post, data := updSub } demoNote
    (by decide) (by decide)
